import Mathlib

/-!
Verification of the EchoJournal request-processing pipeline.

The development embeds the three Python source files (`app.py`,
`app_demo.py`, `app_streamlit.py`).  External collaborators (the
speech-transcription service, the chat-completion service, the
filesystem write) are modelled as oracle parameters; the handler logic,
the transient store and the prompt-template substitution are embedded
faithfully, statement for statement.
-/

namespace EchoJournal

/-- Raw audio bytes (`file.read()` / the multipart payload). -/
abbrev Bytes := List Nat

/-- One uploaded file part: `filename` and content, as Flask's
`request.files[...]` exposes them. -/
structure FilePart where
  filename : String
  content  : Bytes
deriving Repr, DecidableEq

/-- An incoming multipart request: the field-name-indexed file parts
(`request.files`). -/
structure Request where
  files : List (String × FilePart)
deriving Repr, DecidableEq

/-- The transient store: an association list from path to file bytes,
most recent write first (a write to an existing path shadows it). -/
abbrev Store := List (String × Bytes)

/-- `os.path.join(a, b)`: an absolute second component discards the
first; otherwise the components are joined with `/` (no separator is
doubled). -/
def pathJoin (a b : String) : String :=
  if b.data.head? = some '/' then b
  else if a.data.getLast? = some '/' then a ++ b
  else a ++ "/" ++ b

/-- A calendar date as `datetime.date` carries it. -/
structure Date where
  year  : Nat
  month : Nat
  day   : Nat
deriving Repr, DecidableEq

/-- `strftime` zero-padding to width 2 (`%m`, `%d`). -/
def pad2 (n : Nat) : String :=
  if n < 10 then "0" ++ Nat.repr n else Nat.repr n

/-- `today.strftime("%Y-%m-%d")` from `analyze_journal`. -/
def formatDate (d : Date) : String :=
  Nat.repr d.year ++ "-" ++ pad2 d.month ++ "-" ++ pad2 d.day

/-!
## Python `str.format` (the langchain f-string substitution)

`ChatPromptTemplate.from_template(template)` followed by
`chain.invoke({...})` formats the template with Python `str.format`
semantics: the *template* is parsed (`{{`/`}}` are brace escapes, a
stray brace raises), each `{name}` field is replaced by the mapped
value, and substituted values are inserted verbatim — they are never
re-parsed.
-/


/-- One parsed segment of a format string: a literal character or a
replacement field. -/
inductive Seg where
  | lit (c : Char)
  | field (name : String)
deriving Repr, DecidableEq

/-- Consume a field name up to the closing `\x7d`; `none` when the brace
is never closed. -/
def takeField : List Char → Option (String × List Char)
  | [] => none
  | '\x7d' :: rest => some ("", rest)
  | c :: rest => (takeField rest).map (fun p => (String.singleton c ++ p.1, p.2))

/-- Fuelled format-string parser.  It consumes at least one character
per step, so `length + 1` fuel always suffices. -/
def parseFmtAux : Nat → List Char → Except String (List Seg)
  | _, [] => .ok []
  | 0, _ :: _ => .error "format parser out of fuel"
  | fuel + 1, c :: rest =>
    if c = '\x7b' then
      if rest.head? = some '\x7b' then
        (parseFmtAux fuel rest.tail).map (Seg.lit '\x7b' :: ·)
      else
        match takeField rest with
        | none => .error "Single open brace encountered in format string"
        | some (name, rest2) => (parseFmtAux fuel rest2).map (Seg.field name :: ·)
    else if c = '\x7d' then
      if rest.head? = some '\x7d' then
        (parseFmtAux fuel rest.tail).map (Seg.lit '\x7d' :: ·)
      else .error "Single close brace encountered in format string"
    else
      (parseFmtAux fuel rest).map (Seg.lit c :: ·)

/-- Parse a whole format template. -/
def parseFmt (tpl : String) : Except String (List Seg) :=
  parseFmtAux (tpl.data.length + 1) tpl.data

/-- Render parsed segments against a variable mapping.  A field whose
name the mapping lacks raises (`KeyError`); mapped values are inserted
verbatim, never re-parsed. -/
def renderSegs (m : String → Option String) : List Seg → Except String String
  | [] => .ok ""
  | Seg.lit c :: rest => (renderSegs m rest).map (fun s => String.singleton c ++ s)
  | Seg.field n :: rest =>
      match m n with
      | none => .error ("missing template variable: " ++ n)
      | some v => (renderSegs m rest).map (fun s => v ++ s)

/-- `template.format(**mapping)`: parse, then render. -/
def pythonFormat (tpl : String) (m : String → Option String) : Except String String :=
  match parseFmt tpl with
  | .error e => .error e
  | .ok segs => renderSegs m segs

/-!
## The prompt template

The template literal of `analyze_journal`, transcribed byte for byte
from the sources (written here as the concatenation of its lines) and
split at its two replacement fields.  The part before the `today` field
is identical in all three files; the middle part differs between
`app.py`/`app_demo.py` (a four-space line before "User Journal Entry")
and `app_streamlit.py` (an empty line there); the tail after the
`transcription` field carries a trailing space in `app.py` only.
-/

/-- Template text before the `today` field (all three files). -/
def tplPre : String :=
  "\nYou are an empathetic AI psychologist assistant. "
     ++ "\nThe user has shared a journal entry (transcribed from speech). "
     ++ "\nPerform the following steps:"
     ++ "\n"
     ++ "\nPrompt 1 - Acknowledge & Summarize: Briefly summarize what the user expressed in a warm, empathetic tone. 1-2 sentences."
     ++ "\nPrompt 2 - Mood Analysis: Identify the emotional state(s) the user might be experiencing, based on their description. Be specific (e.g., anxious, frustrated, relieved, overwhelmed)."
     ++ "\nPrompt 3 - Therapeutic Response: Use evidence-based therapeutic frameworks—primarily Problem-Solving Therapy (PST)—to guide your response. "
     ++ "\nThis includes:"
     ++ "\n- Clarifying the stressor"
     ++ "\n- Breaking it into manageable parts"
     ++ "\n- Suggesting actionable coping strategies"
     ++ "\n- Encouraging reflection and positive reinforcement"
     ++ "\n"
     ++ "\nTone & Style: Always maintain empathy, non-judgment, and encouragement. "
     ++ "\nUse simple, supportive language rather than clinical jargon. "
     ++ "\n"
     ++ "\nFormat your output exactly like this:"
     ++ "\n"
     ++ "\n📅 Journal Date: "

/-- Template text between the two fields in `app.py` and `app_demo.py`. -/
def tplMidA : String := "\n📝 Journal Entry Summary: ...\n😊 Mood Analysis: ...\n🧠 Therapeutic Guidance (PST-based): ...\n🌱 Encouragement: ...\n    \nUser Journal Entry (transcribed):\n\"\"\""

/-- Template text between the two fields in `app_streamlit.py`. -/
def tplMidS : String := "\n📝 Journal Entry Summary: ...\n😊 Mood Analysis: ...\n🧠 Therapeutic Guidance (PST-based): ...\n🌱 Encouragement: ...\n\nUser Journal Entry (transcribed):\n\"\"\""

/-- Template text after the `transcription` field in `app.py`. -/
def tplPostA : String := "\"\"\" \n"

/-- Template text after the `transcription` field in `app_demo.py` and
`app_streamlit.py`. -/
def tplPostD : String := "\"\"\"\n"

/-- The full template of `app.py`. -/
def templateApp : String :=
  tplPre ++ "{today}" ++ tplMidA ++ "{transcription}" ++ tplPostA

/-- The full template of `app_demo.py`. -/
def templateDemo : String :=
  tplPre ++ "{today}" ++ tplMidA ++ "{transcription}" ++ tplPostD

/-- The full template of `app_streamlit.py`. -/
def templateStreamlit : String :=
  tplPre ++ "{today}" ++ tplMidS ++ "{transcription}" ++ tplPostD

/-- The literal characters of a string as parsed segments. -/
def litSegs (s : String) : List Seg := s.data.map Seg.lit

/-- Parsed form of `templateApp`. -/
def tplSegsApp : List Seg :=
  litSegs tplPre ++ Seg.field "today"
    :: (litSegs tplMidA ++ Seg.field "transcription" :: litSegs tplPostA)

/-- Parsed form of `templateDemo`. -/
def tplSegsDemo : List Seg :=
  litSegs tplPre ++ Seg.field "today"
    :: (litSegs tplMidA ++ Seg.field "transcription" :: litSegs tplPostD)

/-- Parsed form of `templateStreamlit`. -/
def tplSegsStreamlit : List Seg :=
  litSegs tplPre ++ Seg.field "today"
    :: (litSegs tplMidS ++ Seg.field "transcription" :: litSegs tplPostD)

/-!
## Parsing the fixed templates
-/

set_option maxRecDepth 2048

/-- Characters that the parser copies through as literals. -/
def braceFree (cs : List Char) : Prop := ∀ c ∈ cs, c ≠ '\x7b' ∧ c ≠ '\x7d'

instance (cs : List Char) : Decidable (braceFree cs) :=
  List.decidableBAll _ cs

theorem braceFree_append {a b : List Char} (ha : braceFree a) (hb : braceFree b) :
    braceFree (a ++ b) := by
  intro c hc
  rcases List.mem_append.mp hc with h | h
  · exact ha c h
  · exact hb c h

theorem parseFmtAux_nil (fuel : Nat) : parseFmtAux fuel [] = .ok [] := by
  cases fuel <;> rfl

theorem parseFmtAux_lits (cs : List Char) (h : braceFree cs) (fuel : Nat)
    (rest : List Char) :
    parseFmtAux (cs.length + fuel) (cs ++ rest)
      = (parseFmtAux fuel rest).map (fun segs => cs.map Seg.lit ++ segs) := by
  induction cs with
  | nil =>
      simp only [List.length_nil, Nat.zero_add, List.nil_append, List.map_nil]
      cases parseFmtAux fuel rest with
      | error e => rfl
      | ok segs => simp [Except.map]
  | cons c cs ih =>
      have hc := h c (List.mem_cons_self c cs)
      have h' : braceFree cs := fun x hx => h x (List.mem_cons_of_mem _ hx)
      have hlen : (c :: cs).length + fuel = cs.length + fuel + 1 := by
        simp [List.length_cons]; omega
      rw [hlen, List.cons_append, parseFmtAux, if_neg hc.1, if_neg hc.2, ih h']
      cases parseFmtAux fuel rest with
      | error e => rfl
      | ok segs => simp [Except.map]

theorem parseFmtAux_today (fuel : Nat) (rest : List Char) :
    parseFmtAux (fuel + 1)
        ('\x7b' :: 't' :: 'o' :: 'd' :: 'a' :: 'y' :: '\x7d' :: rest)
      = (parseFmtAux fuel rest).map (Seg.field "today" :: ·) := rfl

theorem parseFmtAux_transcription (fuel : Nat) (rest : List Char) :
    parseFmtAux (fuel + 1)
        ('\x7b' :: 't' :: 'r' :: 'a' :: 'n' :: 's' :: 'c' :: 'r' :: 'i' :: 'p'
          :: 't' :: 'i' :: 'o' :: 'n' :: '\x7d' :: rest)
      = (parseFmtAux fuel rest).map (Seg.field "transcription" :: ·) := rfl

theorem braceFree_tplPre : braceFree tplPre.data := by
  rw [tplPre]
  simp only [String.data_append]
  repeat apply braceFree_append
  all_goals decide

theorem braceFree_tplMidA : braceFree tplMidA.data := by decide

theorem braceFree_tplMidS : braceFree tplMidS.data := by decide

theorem braceFree_tplPostA : braceFree tplPostA.data := by decide

theorem braceFree_tplPostD : braceFree tplPostD.data := by decide

theorem parseFmtAux_lits_end (cs : List Char) (h : braceFree cs) (fuel : Nat) :
    parseFmtAux (cs.length + fuel) cs = .ok (cs.map Seg.lit) := by
  have h2 := parseFmtAux_lits cs h fuel []
  rw [List.append_nil] at h2
  rw [h2, parseFmtAux_nil]
  simp [Except.map]

theorem data_today :
    ("{today}" : String).data = ['\x7b', 't', 'o', 'd', 'a', 'y', '\x7d'] := rfl

theorem data_transcription :
    ("{transcription}" : String).data
      = ['\x7b', 't', 'r', 'a', 'n', 's', 'c', 'r', 'i', 'p', 't', 'i', 'o', 'n',
        '\x7d'] := rfl

theorem data_templateApp : templateApp.data
    = tplPre.data ++ ('\x7b' :: 't' :: 'o' :: 'd' :: 'a' :: 'y' :: '\x7d' ::
        (tplMidA.data ++ ('\x7b' :: 't' :: 'r' :: 'a' :: 'n' :: 's' :: 'c' :: 'r'
          :: 'i' :: 'p' :: 't' :: 'i' :: 'o' :: 'n' :: '\x7d' :: tplPostA.data))) := by
  simp only [templateApp, String.data_append, data_today, data_transcription,
    List.append_assoc, List.cons_append, List.nil_append]

theorem parse_templateApp : parseFmt templateApp = .ok tplSegsApp := by
  have hlen : templateApp.data.length + 1
      = tplPre.data.length
          + ((tplMidA.data.length + ((tplPostA.data.length + 21) + 1)) + 1) := by
    rw [data_templateApp]
    simp only [List.length_append, List.length_cons]
    omega
  rw [parseFmt, hlen, data_templateApp,
    parseFmtAux_lits tplPre.data braceFree_tplPre, parseFmtAux_today,
    parseFmtAux_lits tplMidA.data braceFree_tplMidA, parseFmtAux_transcription,
    parseFmtAux_lits_end tplPostA.data braceFree_tplPostA]
  simp [tplSegsApp, litSegs, Except.map]

theorem data_templateDemo : templateDemo.data
    = tplPre.data ++ ('\x7b' :: 't' :: 'o' :: 'd' :: 'a' :: 'y' :: '\x7d' ::
        (tplMidA.data ++ ('\x7b' :: 't' :: 'r' :: 'a' :: 'n' :: 's' :: 'c' :: 'r'
          :: 'i' :: 'p' :: 't' :: 'i' :: 'o' :: 'n' :: '\x7d' :: tplPostD.data))) := by
  simp only [templateDemo, String.data_append, data_today, data_transcription,
    List.append_assoc, List.cons_append, List.nil_append]

theorem parse_templateDemo : parseFmt templateDemo = .ok tplSegsDemo := by
  have hlen : templateDemo.data.length + 1
      = tplPre.data.length
          + ((tplMidA.data.length + ((tplPostD.data.length + 21) + 1)) + 1) := by
    rw [data_templateDemo]
    simp only [List.length_append, List.length_cons]
    omega
  rw [parseFmt, hlen, data_templateDemo,
    parseFmtAux_lits tplPre.data braceFree_tplPre, parseFmtAux_today,
    parseFmtAux_lits tplMidA.data braceFree_tplMidA, parseFmtAux_transcription,
    parseFmtAux_lits_end tplPostD.data braceFree_tplPostD]
  simp [tplSegsDemo, litSegs, Except.map]

theorem data_templateStreamlit : templateStreamlit.data
    = tplPre.data ++ ('\x7b' :: 't' :: 'o' :: 'd' :: 'a' :: 'y' :: '\x7d' ::
        (tplMidS.data ++ ('\x7b' :: 't' :: 'r' :: 'a' :: 'n' :: 's' :: 'c' :: 'r'
          :: 'i' :: 'p' :: 't' :: 'i' :: 'o' :: 'n' :: '\x7d' :: tplPostD.data))) := by
  simp only [templateStreamlit, String.data_append, data_today, data_transcription,
    List.append_assoc, List.cons_append, List.nil_append]

theorem parse_templateStreamlit :
    parseFmt templateStreamlit = .ok tplSegsStreamlit := by
  have hlen : templateStreamlit.data.length + 1
      = tplPre.data.length
          + ((tplMidS.data.length + ((tplPostD.data.length + 21) + 1)) + 1) := by
    rw [data_templateStreamlit]
    simp only [List.length_append, List.length_cons]
    omega
  rw [parseFmt, hlen, data_templateStreamlit,
    parseFmtAux_lits tplPre.data braceFree_tplPre, parseFmtAux_today,
    parseFmtAux_lits tplMidS.data braceFree_tplMidS, parseFmtAux_transcription,
    parseFmtAux_lits_end tplPostD.data braceFree_tplPostD]
  simp [tplSegsStreamlit, litSegs, Except.map]

/-!
## Rendering lemmas
-/

theorem str_empty_append (s : String) : "" ++ s = s := rfl

theorem str_append_empty (s : String) : s ++ "" = s := String.ext (by simp)

theorem str_append_assoc (a b c : String) : a ++ b ++ c = a ++ (b ++ c) :=
  String.ext (by simp)

theorem renderSegs_nil (m : String → Option String) : renderSegs m [] = .ok "" := rfl

theorem renderSegs_lit_cons (m : String → Option String) (c : Char) (l : List Seg) :
    renderSegs m (Seg.lit c :: l)
      = (renderSegs m l).map (fun s => String.singleton c ++ s) := rfl

theorem renderSegs_field_cons (m : String → Option String) (n : String)
    (l : List Seg) :
    renderSegs m (Seg.field n :: l)
      = match m n with
        | none => .error ("missing template variable: " ++ n)
        | some v => (renderSegs m l).map (fun s => v ++ s) := rfl

theorem renderSegs_append (m : String → Option String) (xs ys : List Seg) :
    renderSegs m (xs ++ ys)
      = (renderSegs m xs).bind (fun a => (renderSegs m ys).map (fun b => a ++ b)) := by
  induction xs with
  | nil =>
      rw [List.nil_append, renderSegs_nil]
      cases renderSegs m ys with
      | error e => rfl
      | ok b => simp [Except.bind, Except.map, str_empty_append]
  | cons x xs ih =>
      cases x with
      | lit c =>
          rw [List.cons_append, renderSegs_lit_cons, renderSegs_lit_cons, ih]
          cases renderSegs m xs with
          | error e => rfl
          | ok a =>
              cases renderSegs m ys with
              | error e => rfl
              | ok b => simp [Except.bind, Except.map, str_append_assoc]
      | field n =>
          rw [List.cons_append, renderSegs_field_cons, renderSegs_field_cons]
          cases m n with
          | none => rfl
          | some v =>
              rw [ih]
              cases renderSegs m xs with
              | error e => rfl
              | ok a =>
                  cases renderSegs m ys with
                  | error e => rfl
                  | ok b => simp [Except.bind, Except.map, str_append_assoc]

theorem renderSegs_lits (m : String → Option String) (cs : List Char) :
    renderSegs m (cs.map Seg.lit) = .ok (String.mk cs) := by
  induction cs with
  | nil => rfl
  | cons c cs ih => simp only [List.map_cons, renderSegs, ih]; rfl

theorem renderSegs_litSegs (m : String → Option String) (s : String) :
    renderSegs m (litSegs s) = .ok s := by
  simpa using renderSegs_lits m s.data

/-!
## The prompt synthesizer (the pure part of `analyze_journal`)
-/

/-- The variable mapping passed to `chain.invoke` (the dict holding the
`transcription` and `today` keys). -/
def promptVars (transcription today : String) : String → Option String :=
  fun n =>
    if n = "transcription" then some transcription
    else if n = "today" then some today
    else none

/-- Prompt synthesis in `app.py`: format the template with the
transcription text and `today.strftime("%Y-%m-%d")`. -/
def buildPromptApp (transcription : String) (d : Date) : Except String String :=
  pythonFormat templateApp (promptVars transcription (formatDate d))

/-- Prompt synthesis in `app_demo.py`. -/
def buildPromptDemo (transcription : String) (d : Date) : Except String String :=
  pythonFormat templateDemo (promptVars transcription (formatDate d))

/-- Prompt synthesis in `app_streamlit.py`. -/
def buildPromptStreamlit (transcription : String) (d : Date) : Except String String :=
  pythonFormat templateStreamlit (promptVars transcription (formatDate d))

theorem promptVars_transcription (t td : String) :
    promptVars t td "transcription" = some t := rfl

theorem promptVars_today (t td : String) : promptVars t td "today" = some td := rfl

theorem renderSegs_prompt (t td : String) (pre mid post : String) :
    renderSegs (promptVars t td)
        (litSegs pre ++ Seg.field "today"
          :: (litSegs mid ++ Seg.field "transcription" :: litSegs post))
      = .ok (pre ++ (td ++ (mid ++ (t ++ post)))) := by
  rw [renderSegs_append]
  rw [show (Seg.field "today"
        :: (litSegs mid ++ Seg.field "transcription" :: litSegs post))
      = [Seg.field "today"]
          ++ (litSegs mid ++ ([Seg.field "transcription"] ++ litSegs post)) from rfl]
  rw [renderSegs_append, renderSegs_append, renderSegs_append,
    renderSegs_litSegs, renderSegs_litSegs, renderSegs_litSegs]
  rw [show renderSegs (promptVars t td) [Seg.field "today"]
      = (renderSegs (promptVars t td) []).map (fun s => td ++ s) from rfl]
  rw [show renderSegs (promptVars t td) [Seg.field "transcription"]
      = (renderSegs (promptVars t td) []).map (fun s => t ++ s) from rfl]
  simp [renderSegs, Except.map, Except.bind, str_append_empty]

theorem buildPromptApp_eq (t : String) (d : Date) :
    buildPromptApp t d
      = .ok (tplPre ++ (formatDate d ++ (tplMidA ++ (t ++ tplPostA)))) := by
  have h1 : buildPromptApp t d
      = renderSegs (promptVars t (formatDate d)) tplSegsApp := by
    rw [buildPromptApp, pythonFormat, parse_templateApp]
  rw [h1, tplSegsApp, renderSegs_prompt]

theorem buildPromptDemo_eq (t : String) (d : Date) :
    buildPromptDemo t d
      = .ok (tplPre ++ (formatDate d ++ (tplMidA ++ (t ++ tplPostD)))) := by
  have h1 : buildPromptDemo t d
      = renderSegs (promptVars t (formatDate d)) tplSegsDemo := by
    rw [buildPromptDemo, pythonFormat, parse_templateDemo]
  rw [h1, tplSegsDemo, renderSegs_prompt]

theorem buildPromptStreamlit_eq (t : String) (d : Date) :
    buildPromptStreamlit t d
      = .ok (tplPre ++ (formatDate d ++ (tplMidS ++ (t ++ tplPostD)))) := by
  have h1 : buildPromptStreamlit t d
      = renderSegs (promptVars t (formatDate d)) tplSegsStreamlit := by
    rw [buildPromptStreamlit, pythonFormat, parse_templateStreamlit]
  rw [h1, tplSegsStreamlit, renderSegs_prompt]

attribute [irreducible] buildPromptApp buildPromptDemo buildPromptStreamlit

/-!
## The request handler (`handle_file_upload` in `app.py`)

The two external services and the filesystem write are oracles; the
handler's control flow, transient-store bookkeeping and response shaping
follow the source line by line.  `calls` records every invocation of an
external client, so "the client is never invoked" is a statement about
the run, not about the oracle value.
-/

/-- An invocation of an external client during one request. -/
inductive Call where
  | transcribe (content : Bytes)
  | analyze (prompt : String)
deriving Repr, DecidableEq

/-- What the handler produces: an HTTP response built by the handler
itself, or an exception that escapes the handler uncaught (left for the
surrounding framework). -/
inductive Outcome where
  | response (status : Nat) (body : List (String × String))
  | uncaught (err : String)
deriving Repr, DecidableEq

/-- The result of one request: the outcome, the transient store after
the request, and the external calls that were made. -/
structure RunResult where
  outcome : Outcome
  store   : Store
  calls   : List Call
deriving Repr, DecidableEq

/-- The request's environment: today's date, whether `file.save` raises,
and the two external services (`client.audio.transcriptions.create` and
the chat model), each returning text or raising. -/
structure Oracles where
  today      : Date
  saveErr    : Option String
  transcribe : Bytes → Except String String
  analyze    : String → Except String String

/-- Read a file from the transient store. -/
def lookupStore (s : Store) (p : String) : Option Bytes := s.lookup p

/-- `transcribe_audio(file_path)`: open the stored file and send it to
the speech-to-text service; a missing file or a service error raises. -/
def transcribe_audio (o : Oracles) (s : Store) (path : String) :
    Except String String × List Call :=
  match lookupStore s path with
  | none => (.error ("[Errno 2] No such file or directory: " ++ path), [])
  | some b => (o.transcribe b, [Call.transcribe b])

/-- `analyze_journal(transcription)` in `app.py`: synthesize the prompt,
then send it to the chat-completion service. -/
def analyze_journal (o : Oracles) (transcription : String) :
    Except String String × List Call :=
  match buildPromptApp transcription o.today with
  | .error e => (.error e, [])
  | .ok prompt => (o.analyze prompt, [Call.analyze prompt])

/-- `os.path.join("uploads", file.filename)`. -/
def uploadPath (f : FilePart) : String := pathJoin "uploads" f.filename

/-- `handle_file_upload()` from `app.py` (both the `/process` and
`/upload` routes call it).  Note: `file.save` happens before the
`try`, so its failure is not mapped to a 500; and no branch removes the
stored file. -/
def handle_file_upload (o : Oracles) (req : Request) (s : Store) : RunResult :=
  match req.files.lookup "file" with
  | none => ⟨.response 400 [("error", "No audio file uploaded")], s, []⟩
  | some file =>
    let file_path := uploadPath file
    match o.saveErr with
    | some e => ⟨.uncaught e, s, []⟩
    | none =>
      let s1 : Store := (file_path, file.content) :: s
      match transcribe_audio o s1 file_path with
      | (.error e, c1) => ⟨.response 500 [("error", e)], s1, c1⟩
      | (.ok transcription, c1) =>
        match analyze_journal o transcription with
        | (.error e, c2) => ⟨.response 500 [("error", e)], s1, c1 ++ c2⟩
        | (.ok analysis, c2) =>
          ⟨.response 200 [("transcription", transcription), ("analysis", analysis)],
            s1, c1 ++ c2⟩

/-- `os.remove`: drop the (most recent) file stored at `p`. -/
def removeFile (s : Store) (p : String) : Store :=
  s.eraseP (fun kv => kv.1 == p)

/-- Python `str.split(".")` on a character list: groups between dots
(an empty input gives one empty group, exactly as in Python). -/
def splitOnDot : List Char → List (List Char)
  | [] => [[]]
  | c :: rest =>
    match splitOnDot rest with
    | [] => [[]]
    | g :: gs => if c = '.' then [] :: g :: gs else (c :: g) :: gs

/-- `uploaded_file.name.split(".")[-1]`: the text after the last dot
(the whole name when there is no dot). -/
def lastExt (name : String) : String :=
  String.mk ((splitOnDot name.data).getLastD [])

/-- `"temp_audio." + uploaded_file.name.split(".")[-1]` from
`app_streamlit.py`. -/
def streamlitTempPath (name : String) : String :=
  "temp_audio." ++ lastExt name

/-- `analyze_journal(transcription)` as `app_streamlit.py` defines it. -/
def analyze_journal_streamlit (o : Oracles) (transcription : String) :
    Except String String × List Call :=
  match buildPromptStreamlit transcription o.today with
  | .error e => (.error e, [])
  | .ok prompt => (o.analyze prompt, [Call.analyze prompt])

/-- The module-level upload flow of `app_streamlit.py`: save the upload
to the fixed temp path, transcribe, analyze, then remove the temp file —
the removal is on the success path only, and an exception propagates
with the file still stored. -/
def streamlit_flow (o : Oracles) (name : String) (content : Bytes) (s : Store) :
    Except String (String × String) × Store :=
  let temp := streamlitTempPath name
  let s1 : Store := (temp, content) :: s
  match transcribe_audio o s1 temp with
  | (.error e, _) => (.error e, s1)
  | (.ok t, _) =>
    match analyze_journal_streamlit o t with
    | (.error e, _) => (.error e, s1)
    | (.ok a, _) => (.ok (t, a), removeFile s1 temp)

/-!
## Shape lemmas for the handler's paths
-/

theorem handle_no_file (o : Oracles) (req : Request) (s : Store)
    (hf : req.files.lookup "file" = none) :
    handle_file_upload o req s
      = ⟨.response 400 [("error", "No audio file uploaded")], s, []⟩ := by
  simp only [handle_file_upload, hf]

theorem handle_save_err (o : Oracles) (req : Request) (s : Store) (f : FilePart)
    (e : String) (hf : req.files.lookup "file" = some f)
    (hs : o.saveErr = some e) :
    handle_file_upload o req s = ⟨.uncaught e, s, []⟩ := by
  simp only [handle_file_upload, hf, hs]

theorem lookupStore_write (s : Store) (p : String) (b : Bytes) :
    lookupStore ((p, b) :: s) p = some b := by
  simp [lookupStore, List.lookup]

theorem handle_transcribe_err (o : Oracles) (req : Request) (s : Store)
    (f : FilePart) (e : String) (hf : req.files.lookup "file" = some f)
    (hs : o.saveErr = none) (ht : o.transcribe f.content = .error e) :
    handle_file_upload o req s
      = ⟨.response 500 [("error", e)], (uploadPath f, f.content) :: s,
          [Call.transcribe f.content]⟩ := by
  simp only [handle_file_upload, hf, hs, transcribe_audio, lookupStore_write, ht]

theorem analyze_journal_eq (o : Oracles) (t : String) :
    analyze_journal o t
      = match buildPromptApp t o.today with
        | .error e => (.error e, [])
        | .ok prompt => (o.analyze prompt, [Call.analyze prompt]) := rfl

theorem analyze_journal_ok (o : Oracles) (t p a : String)
    (hp : buildPromptApp t o.today = .ok p) (ha : o.analyze p = .ok a) :
    analyze_journal o t = (.ok a, [Call.analyze p]) := by
  rw [analyze_journal_eq, hp]
  show (o.analyze p, [Call.analyze p]) = _
  rw [ha]

theorem analyze_journal_err (o : Oracles) (t p e : String)
    (hp : buildPromptApp t o.today = .ok p) (ha : o.analyze p = .error e) :
    analyze_journal o t = (.error e, [Call.analyze p]) := by
  rw [analyze_journal_eq, hp]
  show (o.analyze p, [Call.analyze p]) = _
  rw [ha]

theorem handle_analyze_err (o : Oracles) (req : Request) (s : Store) (f : FilePart)
    (t p e : String) (hf : req.files.lookup "file" = some f)
    (hs : o.saveErr = none) (ht : o.transcribe f.content = .ok t)
    (hp : buildPromptApp t o.today = .ok p) (ha : o.analyze p = .error e) :
    handle_file_upload o req s
      = ⟨.response 500 [("error", e)], (uploadPath f, f.content) :: s,
          [Call.transcribe f.content, Call.analyze p]⟩ := by
  simp only [handle_file_upload, hf, hs]
  simp only [transcribe_audio, lookupStore_write, ht]
  rw [analyze_journal_err o t p e hp ha]
  rfl

theorem handle_success (o : Oracles) (req : Request) (s : Store) (f : FilePart)
    (t p a : String) (hf : req.files.lookup "file" = some f)
    (hs : o.saveErr = none) (ht : o.transcribe f.content = .ok t)
    (hp : buildPromptApp t o.today = .ok p) (ha : o.analyze p = .ok a) :
    handle_file_upload o req s
      = ⟨.response 200 [("transcription", t), ("analysis", a)],
          (uploadPath f, f.content) :: s,
          [Call.transcribe f.content, Call.analyze p]⟩ := by
  simp only [handle_file_upload, hf, hs]
  simp only [transcribe_audio, lookupStore_write, ht]
  rw [analyze_journal_ok o t p a hp ha]
  rfl

theorem analyze_journal_streamlit_eq (o : Oracles) (t : String) :
    analyze_journal_streamlit o t
      = match buildPromptStreamlit t o.today with
        | .error e => (.error e, [])
        | .ok prompt => (o.analyze prompt, [Call.analyze prompt]) := rfl

theorem analyze_journal_streamlit_err (o : Oracles) (t p e : String)
    (hp : buildPromptStreamlit t o.today = .ok p) (ha : o.analyze p = .error e) :
    analyze_journal_streamlit o t = (.error e, [Call.analyze p]) := by
  rw [analyze_journal_streamlit_eq, hp]
  show (o.analyze p, [Call.analyze p]) = _
  rw [ha]

theorem transcribe_audio_eq (o : Oracles) (s : Store) (path : String) :
    transcribe_audio o s path
      = match lookupStore s path with
        | none => (.error ("[Errno 2] No such file or directory: " ++ path), [])
        | some b => (o.transcribe b, [Call.transcribe b]) := rfl

theorem transcribe_audio_write (o : Oracles) (s : Store) (p : String) (b : Bytes) :
    transcribe_audio o ((p, b) :: s) p = (o.transcribe b, [Call.transcribe b]) := by
  rw [transcribe_audio_eq, lookupStore_write]

theorem streamlit_flow_eq (o : Oracles) (name : String) (content : Bytes) (s : Store) :
    streamlit_flow o name content s
      = (match transcribe_audio o ((streamlitTempPath name, content) :: s)
              (streamlitTempPath name) with
         | (.error e, _) => (.error e, (streamlitTempPath name, content) :: s)
         | (.ok t, _) =>
           match analyze_journal_streamlit o t with
           | (.error e, _) => (.error e, (streamlitTempPath name, content) :: s)
           | (.ok a, _) =>
             (.ok (t, a),
               removeFile ((streamlitTempPath name, content) :: s)
                 (streamlitTempPath name))) := rfl

theorem streamlit_analyze_err (o : Oracles) (name : String) (content : Bytes)
    (s : Store) (t p e : String) (ht : o.transcribe content = .ok t)
    (hp : buildPromptStreamlit t o.today = .ok p) (ha : o.analyze p = .error e) :
    streamlit_flow o name content s
      = (.error e, (streamlitTempPath name, content) :: s) := by
  have h1 : transcribe_audio o ((streamlitTempPath name, content) :: s)
      (streamlitTempPath name) = (.ok t, [Call.transcribe content]) := by
    rw [transcribe_audio_write, ht]
  have h2 : analyze_journal_streamlit o t = (.error e, [Call.analyze p]) :=
    analyze_journal_streamlit_err o t p e hp ha
  rw [streamlit_flow_eq, h1]
  show (match analyze_journal_streamlit o t with
        | (.error e, _) =>
          ((.error e : Except String (String × String)),
            (streamlitTempPath name, content) :: s)
        | (.ok a, _) =>
          (.ok (t, a),
            removeFile ((streamlitTempPath name, content) :: s)
              (streamlitTempPath name)))
      = (.error e, (streamlitTempPath name, content) :: s)
  rw [h2]

/-!
## Non-emptiness of the synthesized prompt
-/

theorem tplPre_data_ne_nil : tplPre.data ≠ [] := by
  have h : tplPre.data.head? = some (Char.ofNat 10) := by
    simp only [tplPre, String.data_append]
    rfl
  intro hnil
  rw [hnil] at h
  exact Option.noConfusion h

theorem buildPromptApp_ne_empty (t : String) (d : Date) (p : String)
    (h : buildPromptApp t d = .ok p) : p ≠ "" := by
  rw [buildPromptApp_eq] at h
  have hp : p = tplPre ++ (formatDate d ++ (tplMidA ++ (t ++ tplPostA))) :=
    (Except.ok.injEq _ _).mp h.symm
  intro h0
  rw [h0] at hp
  have hdata := congrArg String.data hp
  simp only [String.data_append] at hdata
  have : tplPre.data = [] := (List.append_eq_nil.mp hdata.symm).1
  exact tplPre_data_ne_nil this

/-!
## Concrete fixtures used by the closed instances below
-/

/-- A fixed date. -/
def dW : Date := ⟨2026, 10, 12⟩

/-- An environment where every collaborator succeeds. -/
def oraclesOkW : Oracles := ⟨dW, none, fun _ => .ok "T", fun _ => .ok "A"⟩

/-- An environment where the transcription service raises. -/
def oraclesTErrW : Oracles := ⟨dW, none, fun _ => .error "boom", fun _ => .ok "A"⟩

/-- An environment where the analysis service raises. -/
def oraclesAErrW : Oracles :=
  ⟨dW, none, fun _ => .ok "T", fun _ => .error "llm down"⟩

/-- An environment where the transient-store write raises. -/
def oraclesSaveErrW : Oracles :=
  ⟨dW, some "disk full", fun _ => .ok "T", fun _ => .ok "A"⟩

/-- A request carrying one file under the `file` field. -/
def reqW : Request := ⟨[("file", ⟨"a.mp3", [1]⟩)]⟩

/-- A request whose file part has an empty filename. -/
def reqEmptyNameW : Request := ⟨[("file", ⟨"", [7]⟩)]⟩

/-- A request with no file part at all. -/
def reqNoFileW : Request := ⟨[]⟩

/-- The prompt the fixtures produce for transcription "T" on `dW`. -/
def promptW : String :=
  tplPre ++ (formatDate dW ++ (tplMidA ++ ("T" ++ tplPostA)))

/-!
## Auxiliary counting and formatting lemmas
-/

theorem count_field_litSegs (s : String) (n : String) :
    (litSegs s).count (Seg.field n) = 0 := by
  rw [List.count_eq_zero]
  intro hmem
  rcases List.mem_map.mp hmem with ⟨c, _, hc⟩
  exact Seg.noConfusion hc

theorem count_today_tplSegsApp : tplSegsApp.count (Seg.field "today") = 1 := by
  simp [tplSegsApp, List.count_append, List.count_cons, count_field_litSegs]

theorem count_transcription_tplSegsApp :
    tplSegsApp.count (Seg.field "transcription") = 1 := by
  simp [tplSegsApp, List.count_append, List.count_cons, count_field_litSegs]

theorem pad2_length (n : Nat) (h : n ≤ 99) : (pad2 n).length = 2 := by
  interval_cases n <;> rfl


/-!
## The claims
-/

/-- C1: for every request whose pipeline completes without an exception
(transcription and analysis both return), the handler returns a 200
response whose JSON body contains exactly the two keys `transcription`
and `analysis`; and for non-empty audio inputs (given collaborators that
return non-empty text on non-empty input) both values are non-empty
strings. -/
theorem claim_c1 (o : Oracles) (req : Request) (s : Store) (f : FilePart)
    (t p a : String)
    (hf : req.files.lookup "file" = some f)
    (hs : o.saveErr = none)
    (ht : o.transcribe f.content = .ok t)
    (hp : buildPromptApp t o.today = .ok p)
    (ha : o.analyze p = .ok a)
    (hT : f.content ≠ [] → t ≠ "")
    (hA : p ≠ "" → a ≠ "")
    (hne : f.content ≠ []) :
    (handle_file_upload o req s).outcome
        = .response 200 [("transcription", t), ("analysis", a)]
      ∧ t ≠ "" ∧ a ≠ "" := by
  refine ⟨?_, hT hne, hA (buildPromptApp_ne_empty t o.today p hp)⟩
  rw [handle_success o req s f t p a hf hs ht hp ha]

/-- C1 witness at a concrete request and all-succeeding collaborators. -/
theorem claim_c1_witness :
    (handle_file_upload oraclesOkW reqW []).outcome
        = .response 200 [("transcription", "T"), ("analysis", "A")]
      ∧ "T" ≠ "" ∧ "A" ≠ "" :=
  claim_c1 oraclesOkW reqW [] ⟨"a.mp3", [1]⟩ "T" promptW "A" rfl rfl rfl
    (buildPromptApp_eq "T" dW) rfl (fun _ => by decide) (fun _ => by decide)
    (by decide)

/-- C2: when the transcription client raises, the analysis client is
never invoked and the response is a 500 carrying the transcription
error's text under the `error` key. -/
theorem claim_c2 (o : Oracles) (req : Request) (s : Store) (f : FilePart)
    (e : String)
    (hf : req.files.lookup "file" = some f)
    (hs : o.saveErr = none)
    (ht : o.transcribe f.content = .error e) :
    (handle_file_upload o req s).outcome = .response 500 [("error", e)]
      ∧ ∀ pr, Call.analyze pr ∉ (handle_file_upload o req s).calls := by
  rw [handle_transcribe_err o req s f e hf hs ht]
  refine ⟨rfl, fun pr hmem => ?_⟩
  exact Call.noConfusion (List.mem_singleton.mp hmem)

/-- C2 witness with a concretely failing transcription service. -/
theorem claim_c2_witness :
    (handle_file_upload oraclesTErrW reqW []).outcome
        = .response 500 [("error", "boom")]
      ∧ Call.analyze "anything" ∉ (handle_file_upload oraclesTErrW reqW []).calls :=
  ⟨(claim_c2 oraclesTErrW reqW [] ⟨"a.mp3", [1]⟩ "boom" rfl rfl rfl).1,
    (claim_c2 oraclesTErrW reqW [] ⟨"a.mp3", [1]⟩ "boom" rfl rfl rfl).2 "anything"⟩


/-- The prompt the fixtures produce for transcription "T" on `dW` in the
streamlit variant. -/
def promptSW : String :=
  tplPre ++ (formatDate dW ++ (tplMidS ++ ("T" ++ tplPostD)))

/-- C3: the claim says the stored audio file is removed after the
pipeline on success and on failure.  The code never removes it: in
`app.py` even a fully successful request leaves the file in the store,
and in `app_streamlit.py` a failing analysis leaves the temp file in
place (removal is on the success path only). -/
theorem claim_c3 :
    ((handle_file_upload oraclesOkW reqW []).outcome
        = .response 200 [("transcription", "T"), ("analysis", "A")]
      ∧ lookupStore (handle_file_upload oraclesOkW reqW []).store "uploads/a.mp3"
          = some [1])
    ∧ ((streamlit_flow oraclesAErrW "a.mp3" [1] []).1 = .error "llm down"
      ∧ lookupStore (streamlit_flow oraclesAErrW "a.mp3" [1] []).2 "temp_audio.mp3"
          = some [1]) := by
  constructor
  · rw [handle_success oraclesOkW reqW [] ⟨"a.mp3", [1]⟩ "T" promptW "A" rfl rfl rfl
      (buildPromptApp_eq "T" dW) rfl]
    exact ⟨rfl, rfl⟩
  · rw [streamlit_analyze_err oraclesAErrW "a.mp3" [1] [] "T" promptSW "llm down"
      rfl (buildPromptStreamlit_eq "T" dW) rfl]
    exact ⟨rfl, rfl⟩

/-- C4: a request with no file under the `file` field yields a 400 with
an `error` key, invokes neither external client, and writes nothing to
the transient store. -/
theorem claim_c4 (o : Oracles) (req : Request) (s : Store)
    (hf : req.files.lookup "file" = none) :
    (handle_file_upload o req s).outcome
        = .response 400 [("error", "No audio file uploaded")]
      ∧ (handle_file_upload o req s).calls = []
      ∧ (handle_file_upload o req s).store = s := by
  rw [handle_no_file o req s hf]
  exact ⟨rfl, rfl, rfl⟩

/-- C4 witness at a concrete request with no file part. -/
theorem claim_c4_witness :
    (handle_file_upload oraclesOkW reqNoFileW []).outcome
        = .response 400 [("error", "No audio file uploaded")]
      ∧ (handle_file_upload oraclesOkW reqNoFileW []).calls = []
      ∧ (handle_file_upload oraclesOkW reqNoFileW []).store = [] :=
  claim_c4 oraclesOkW reqNoFileW [] rfl

/-- C5: the synthesized prompt contains the transcription text as a
literal unmodified substring and the date, each placeholder substituted
exactly once; the date is rendered as year, dash, two-digit month, dash,
two-digit day. -/
theorem claim_c5 (t : String) (d : Date) (hm : d.month ≤ 12) (hd : d.day ≤ 31) :
    buildPromptApp t d
        = .ok (tplPre ++ (formatDate d ++ (tplMidA ++ (t ++ tplPostA))))
      ∧ tplSegsApp.count (Seg.field "today") = 1
      ∧ tplSegsApp.count (Seg.field "transcription") = 1
      ∧ ∃ ms ds, formatDate d = Nat.repr d.year ++ "-" ++ ms ++ "-" ++ ds
          ∧ ms.length = 2 ∧ ds.length = 2 :=
  ⟨buildPromptApp_eq t d, count_today_tplSegsApp, count_transcription_tplSegsApp,
    pad2 d.month, pad2 d.day, rfl,
    pad2_length d.month (by omega), pad2_length d.day (by omega)⟩

/-- C5 witness at a concrete transcription and date. -/
theorem claim_c5_witness :
    buildPromptApp "hello" dW
        = .ok (tplPre ++ (formatDate dW ++ (tplMidA ++ ("hello" ++ tplPostA))))
      ∧ tplSegsApp.count (Seg.field "today") = 1
      ∧ tplSegsApp.count (Seg.field "transcription") = 1 :=
  ⟨(claim_c5 "hello" dW (by decide) (by decide)).1,
    (claim_c5 "hello" dW (by decide) (by decide)).2.1,
    (claim_c5 "hello" dW (by decide) (by decide)).2.2.1⟩

/-- C6: the claim says two concurrent requests with distinct uploads get
distinct transient paths.  The code derives the path from the
client-supplied filename alone (`uploads/<filename>` in `app.py`,
`temp_audio.<ext>` in `app_streamlit.py`), so distinct uploads sharing a
filename — or, in the streamlit variant, merely an extension — collide. -/
theorem claim_c6 :
    uploadPath ⟨"a.mp3", [1]⟩ = uploadPath ⟨"a.mp3", [2]⟩
      ∧ ([1] : Bytes) ≠ [2]
      ∧ streamlitTempPath "morning.mp3" = streamlitTempPath "evening.mp3"
      ∧ ("morning.mp3" : String) ≠ "evening.mp3" :=
  ⟨rfl, by decide, rfl, by decide⟩

/-- C7 counterexample: when the transient-store write raises, the
exception escapes `handle_file_upload` uncaught (the write sits outside
the `try`), so the handler produces no 500 JSON body at all. -/
theorem claim_c7_counterexample :
    (handle_file_upload oraclesSaveErrW reqW []).outcome = .uncaught "disk full"
      ∧ (handle_file_upload oraclesSaveErrW reqW []).outcome
          ≠ .response 500 [("error", "disk full")] := by
  rw [handle_save_err oraclesSaveErrW reqW [] ⟨"a.mp3", [1]⟩ "disk full" rfl rfl]
  exact ⟨rfl, fun h => Outcome.noConfusion h⟩

/-- C7 amended: transcription-service and analysis-service failures are
surfaced as a 500 whose JSON body carries the raw error text under the
`error` key, but a transient-store write failure propagates out of the
handler uncaught. -/
theorem claim_c7 (o : Oracles) (req : Request) (s : Store) (f : FilePart)
    (hf : req.files.lookup "file" = some f) :
    (∀ e, o.saveErr = some e →
        (handle_file_upload o req s).outcome = .uncaught e)
      ∧ (∀ e, o.saveErr = none → o.transcribe f.content = .error e →
          (handle_file_upload o req s).outcome = .response 500 [("error", e)])
      ∧ (∀ t p e, o.saveErr = none → o.transcribe f.content = .ok t →
          buildPromptApp t o.today = .ok p → o.analyze p = .error e →
          (handle_file_upload o req s).outcome = .response 500 [("error", e)]) := by
  refine ⟨fun e hs => ?_, fun e hs ht => ?_, fun t p e hs ht hp ha => ?_⟩
  · rw [handle_save_err o req s f e hf hs]
  · rw [handle_transcribe_err o req s f e hf hs ht]
  · rw [handle_analyze_err o req s f t p e hf hs ht hp ha]

/-- C7 witness: the amended claim applied at a concrete request whose
store write fails. -/
theorem claim_c7_witness :
    (handle_file_upload oraclesSaveErrW reqW []).outcome = .uncaught "disk full" :=
  (claim_c7 oraclesSaveErrW reqW [] ⟨"a.mp3", [1]⟩ rfl).1 "disk full" rfl

/-- C8 counterexample: a request whose file part has an empty filename is
not rejected — with succeeding collaborators the handler runs the whole
pipeline and returns 200, contradicting the claimed 4xx rejection. -/
theorem claim_c8_counterexample :
    (handle_file_upload oraclesOkW reqEmptyNameW []).outcome
        = .response 200 [("transcription", "T"), ("analysis", "A")]
      ∧ (handle_file_upload oraclesOkW reqEmptyNameW []).calls ≠ [] := by
  rw [handle_success oraclesOkW reqEmptyNameW [] ⟨"", [7]⟩ "T" promptW "A" rfl rfl
    rfl (buildPromptApp_eq "T" dW) rfl]
  exact ⟨rfl, fun h => List.noConfusion h⟩

/-- C8 amended: the handler checks only that the `file` field is
present; an empty filename is not rejected — the payload is stored at
`uploads/` and the pipeline runs, returning 200 when the collaborators
succeed. -/
theorem claim_c8 (o : Oracles) (req : Request) (s : Store) (f : FilePart)
    (t p a : String)
    (hf : req.files.lookup "file" = some f)
    (hname : f.filename = "")
    (hs : o.saveErr = none)
    (ht : o.transcribe f.content = .ok t)
    (hp : buildPromptApp t o.today = .ok p)
    (ha : o.analyze p = .ok a) :
    (handle_file_upload o req s).outcome
        = .response 200 [("transcription", t), ("analysis", a)]
      ∧ (handle_file_upload o req s).calls
          = [Call.transcribe f.content, Call.analyze p]
      ∧ (handle_file_upload o req s).store = ("uploads/", f.content) :: s := by
  rw [handle_success o req s f t p a hf hs ht hp ha]
  refine ⟨rfl, rfl, ?_⟩
  have hu : uploadPath f = "uploads/" := by
    rw [uploadPath, hname]
    decide
  rw [hu]

/-- C8 witness at a concrete empty-filename request. -/
theorem claim_c8_witness :
    (handle_file_upload oraclesOkW reqEmptyNameW []).outcome
        = .response 200 [("transcription", "T"), ("analysis", "A")]
      ∧ (handle_file_upload oraclesOkW reqEmptyNameW []).calls
          = [Call.transcribe [7], Call.analyze promptW]
      ∧ (handle_file_upload oraclesOkW reqEmptyNameW []).store
          = [("uploads/", [7])] :=
  claim_c8 oraclesOkW reqEmptyNameW [] ⟨"", [7]⟩ "T" promptW "A" rfl rfl rfl rfl
    (buildPromptApp_eq "T" dW) rfl

/-- C9: the prompt synthesizer is pure and deterministic — in all three
variants, the same transcription and the same date yield byte-identical
prompt text. -/
theorem claim_c9 (t1 t2 : String) (d1 d2 : Date) (ht : t1 = t2) (hd : d1 = d2) :
    buildPromptApp t1 d1 = buildPromptApp t2 d2
      ∧ buildPromptDemo t1 d1 = buildPromptDemo t2 d2
      ∧ buildPromptStreamlit t1 d1 = buildPromptStreamlit t2 d2 := by
  subst ht
  subst hd
  exact ⟨rfl, rfl, rfl⟩

/-- C9 witness: two invocations at an identical concrete input. -/
theorem claim_c9_witness :
    buildPromptApp "x" dW = buildPromptApp "x" dW
      ∧ buildPromptDemo "x" dW = buildPromptDemo "x" dW
      ∧ buildPromptStreamlit "x" dW = buildPromptStreamlit "x" dW :=
  claim_c9 "x" "x" dW dW rfl rfl

/-- C10 counterexample: the claim says a transcription containing a brace
makes the substitution raise.  It does not: values are inserted verbatim
without being parsed, so the transcription "\x7b" produces a prompt
containing the brace, and no error is raised. -/
theorem claim_c10_counterexample :
    buildPromptApp "\x7b" dW
        = .ok (tplPre ++ (formatDate dW ++ (tplMidA ++ ("\x7b" ++ tplPostA))))
      ∧ (buildPromptApp "\x7b" dW).isOk = true := by
  refine ⟨buildPromptApp_eq "\x7b" dW, ?_⟩
  rw [buildPromptApp_eq]
  rfl

/-- C10 amended: prompt synthesis is total on all transcriptions — only
the fixed template is parsed (and it parses successfully), while the
transcription value is inserted verbatim, braces included, so the
substitution never raises and the prompt contains the transcription as a
substring. -/
theorem claim_c10 (t : String) (d : Date) :
    (∃ p, buildPromptApp t d = .ok p ∧ ∃ l r, p = l ++ (t ++ r))
      ∧ (∃ p, buildPromptDemo t d = .ok p ∧ ∃ l r, p = l ++ (t ++ r))
      ∧ (∃ p, buildPromptStreamlit t d = .ok p ∧ ∃ l r, p = l ++ (t ++ r)) := by
  refine ⟨⟨_, buildPromptApp_eq t d,
      tplPre ++ (formatDate d ++ tplMidA), tplPostA, ?_⟩,
    ⟨_, buildPromptDemo_eq t d,
      tplPre ++ (formatDate d ++ tplMidA), tplPostD, ?_⟩,
    ⟨_, buildPromptStreamlit_eq t d,
      tplPre ++ (formatDate d ++ tplMidS), tplPostD, ?_⟩⟩
  all_goals simp only [str_append_assoc]

end EchoJournal
